import Mathlib

/-!
# Verification of the cross-backend test flow execution layer

Shallow embedding of the `autotest` repository's core: the heuristic step
parser (`src/engines/base-engine.ts`), the three backend adapters
(`AppiumEngine`, `MaestroEngine`, `PlaywrightEngine`) and the execution
coordinator / result aggregator (`src/core/test-engine-manager.ts`).

JavaScript strings are modelled as `String` / `List Char`; the specific
regular expressions used by the source are translated into explicit
leftmost-match scanning functions.  Asynchronous calls that touch the
outside world (WebDriver, the Maestro CLI, Playwright browsers, `fetch`,
the filesystem) are modelled as oracles supplied through environment
records: a call either resolves (`Except.ok`) or rejects (`Except.error`)
with a message, exactly mirroring the `try`/`catch` structure of the
source.
-/

namespace AutoTest

/-! ## JavaScript string primitives -/

/-- The double-quote character, written via its code point so that the
embedding never needs a quote inside a character literal. -/
def quoteChar : Char := Char.ofNat 34

/-- JavaScript `\s` for the ASCII range (space, tab, LF, CR, VT, FF). -/
def jsWhitespace (c : Char) : Bool :=
  c == ' ' || c == '\t' || c == '\n' || c == '\r' ||
  c == Char.ofNat 11 || c == Char.ofNat 12

/-- `pat` is a prefix of `cs` (exact characters). -/
def startsWithChars : List Char → List Char → Bool
  | [], _ => true
  | _ :: _, [] => false
  | p :: ps, c :: cs => p == c && startsWithChars ps cs

/-- `pat` (given in lowercase) is a case-insensitive prefix of `cs`. -/
def ciStartsWithChars : List Char → List Char → Bool
  | [], _ => true
  | _ :: _, [] => false
  | p :: ps, c :: cs => p == c.toLower && ciStartsWithChars ps cs

/-- `pat` occurs as a contiguous substring of `hay`. -/
def containsSub (pat : List Char) : List Char → Bool
  | [] => startsWithChars pat []
  | c :: t => startsWithChars pat (c :: t) || containsSub pat t

/-- JavaScript `s.includes(pat)`. -/
def jsIncludes (s pat : String) : Bool := containsSub pat.data s.data

/-- JavaScript `s.toLowerCase()` (ASCII).  Defined over the character
list so that it reduces inside the kernel. -/
def lowerStr (s : String) : String := String.mk (s.data.map Char.toLower)

/-! ## Step parser (`BaseEngine` in `src/engines/base-engine.ts`) -/

/-- Leftmost match of the regex `"([^"]+)"`: the first double-quoted
non-empty substring, as in `extractTarget`. -/
def firstQuoted : List Char → Option (List Char)
  | [] => none
  | c :: rest =>
    if c == quoteChar then
      let run := rest.takeWhile (fun d => d ≠ quoteChar)
      if run.isEmpty then firstQuoted rest
      else
        match rest.drop run.length with
        | d :: _ => if d == quoteChar then some run else firstQuoted rest
        | [] => firstQuoted rest
    else firstQuoted rest

/-- Character class `[:\s]` of the element patterns in `extractTarget`. -/
def isSepColonWs (c : Char) : Bool := c == ':' || jsWhitespace c

/-- Character class `[^,\s]` of the element patterns in `extractTarget`. -/
def isCapChar (c : Char) : Bool := !(c == ',') && !(jsWhitespace c)

/-- Greedy-with-backtracking tail of the element patterns: after the
keyword, `[:\s]+` consumes `k` characters (tried from the maximal run
down to 1) and `([^,\s]+)` must then capture at least one character. -/
def backtrackCapture (after : List Char) : Nat → Option (List Char)
  | 0 => none
  | k + 1 =>
    match after.drop (k + 1) with
    | c :: tl => if isCapChar c then some ((c :: tl).takeWhile isCapChar) else backtrackCapture after k
    | [] => backtrackCapture after k

/-- Leftmost match of a pattern `word[:\s]+([^,\s]+)` (case-insensitive),
returning the captured group. -/
def wordPatFrom (word : List Char) : List Char → Option (List Char)
  | [] => none
  | c :: rest =>
    (if ciStartsWithChars word (c :: rest) then
      let after := (c :: rest).drop word.length
      let m := (after.takeWhile isSepColonWs).length
      if m = 0 then none else backtrackCapture after m
    else none).orElse (fun _ => wordPatFrom word rest)

/-- The ordered element-pattern keywords of `extractTarget`. -/
def elemPatternWords : List (List Char) :=
  ["button".data, "field".data, "link".data, "element".data, "on".data]

/-- `extractTarget` (base-engine.ts lines 152-173): first quoted string,
else the first element-pattern capture, else the whole step. -/
def extractTarget (step : String) : String :=
  match firstQuoted step.data with
  | some q => String.mk q
  | none =>
    match elemPatternWords.findSome? (fun w => wordPatFrom w step.data) with
    | some cap => String.mk cap
    | none => step

/-- Length of the maximal whitespace run at the head of `cs`. -/
def wsRun (cs : List Char) : Nat := (cs.takeWhile jsWhitespace).length

/-- Match `"([^"]+)"` at the head of `cs`; returns the capture and the
remainder after the closing quote. -/
def matchQuoted : List Char → Option (List Char × List Char)
  | c :: rest =>
    if c == quoteChar then
      let run := rest.takeWhile (fun d => d ≠ quoteChar)
      if run.isEmpty then none
      else
        match rest.drop run.length with
        | d :: rest2 => if d == quoteChar then some (run, rest2) else none
        | [] => none
    else none
  | [] => none

/-- Match the `typePattern` regex of `extractInputValues`,
`(?:type|enter)\s+"([^"]+)"\s+(?:into|in)\s+"([^"]+)"` (case-insensitive),
anchored at the head of `cs`; returns `(value, target)` captures. -/
def typePatternAt (cs : List Char) : Option (List Char × List Char) :=
  let tryVerb (w : List Char) : Option (List Char × List Char) :=
    if ciStartsWithChars w cs then
      let r1 := cs.drop w.length
      let n1 := wsRun r1
      if n1 = 0 then none else
      match matchQuoted (r1.drop n1) with
      | none => none
      | some (v, r2) =>
        let n2 := wsRun r2
        if n2 = 0 then none else
        let r3 := r2.drop n2
        let tryIn (w2 : List Char) : Option (List Char × List Char) :=
          if ciStartsWithChars w2 r3 then
            let r4 := r3.drop w2.length
            let n3 := wsRun r4
            if n3 = 0 then none else
            match matchQuoted (r4.drop n3) with
            | none => none
            | some (t, _) => some (v, t)
          else none
        (tryIn "into".data).orElse (fun _ => tryIn "in".data)
    else none
  (tryVerb "type".data).orElse (fun _ => tryVerb "enter".data)

/-- Leftmost match of the `typePattern` regex anywhere in the string. -/
def typePatternFrom : List Char → Option (List Char × List Char)
  | [] => none
  | c :: rest => (typePatternAt (c :: rest)).orElse (fun _ => typePatternFrom rest)

/-- The alternatives of the separator regex `(?:into|in|to)\s+`, in the
order the alternation tries them. -/
def sepWordList : List (List Char) :=
  ["into".data, "in".data, "to".data]

/-- Match the separator regex at the head of `cs`; returns the matched
length (keyword plus the greedy whitespace run). -/
def sepMatchAt (cs : List Char) : Option Nat :=
  sepWordList.findSome? (fun w =>
    if ciStartsWithChars w cs then
      let n := wsRun (cs.drop w.length)
      if n = 0 then none else some (w.length + n)
    else none)

/-- Leftmost separator match: returns the text before the match and the
text after the match. -/
def findSep : List Char → Option (List Char × List Char)
  | [] => none
  | c :: rest =>
    match sepMatchAt (c :: rest) with
    | some n => some ([], (c :: rest).drop n)
    | none => (findSep rest).map (fun p => (c :: p.1, p.2))

/-- Fuelled worker for JavaScript `String.split` on the separator regex. -/
def splitSepAux : Nat → List Char → List (List Char)
  | 0, cs => [cs]
  | fuel + 1, cs =>
    match findSep cs with
    | none => [cs]
    | some (before, after) => before :: splitSepAux fuel after

/-- JavaScript `step.split(/(?:into|in|to)\s+/i)`. -/
def jsSplitSep (cs : List Char) : List (List Char) :=
  splitSepAux (cs.length + 1) cs

/-- Drop a leading `(?:type|enter)\s+` (case-insensitive), as
`replace(/^(?:type|enter)\s+/i, '')` does. -/
def stripLeadVerb (cs : List Char) : List Char :=
  let tryW (w : List Char) : Option (List Char) :=
    if ciStartsWithChars w cs then
      let r := cs.drop w.length
      let n := wsRun r
      if n = 0 then none else some (r.drop n)
    else none
  ((tryW "type".data).orElse (fun _ => tryW "enter".data)).getD cs

/-- JavaScript `replace(/"/g, '')`: remove every double quote. -/
def removeQuotesChars (cs : List Char) : List Char :=
  cs.filter (fun c => c ≠ quoteChar)

/-- `extractInputValues` (base-engine.ts lines 178-196): prefer the
`typePattern` regex, else split on the separator regex and take the first
two fragments, else `(step, "")`.  Returns `(target, value)`. -/
def extractInputValues (step : String) : String × String :=
  match typePatternFrom step.data with
  | some (v, t) => (String.mk t, String.mk v)
  | none =>
    match jsSplitSep step.data with
    | p0 :: p1 :: _ =>
      (String.mk (removeQuotesChars p1), String.mk (removeQuotesChars (stripLeadVerb p0)))
    | _ => (step, "")

/-- First maximal run of decimal digits in `cs` (the capture of the
`(\d+)` group in `extractWaitDuration`). -/
def firstDigitRun : List Char → Option (List Char)
  | [] => none
  | c :: rest =>
    if c.isDigit then some ((c :: rest).takeWhile Char.isDigit) else firstDigitRun rest

/-- Decimal value of a digit run (`parseInt(..., 10)` on the capture). -/
def digitsToNat (cs : List Char) : Nat :=
  cs.foldl (fun a c => a * 10 + (c.toNat - 48)) 0

/-- `extractWaitDuration` (base-engine.ts lines 201-211). -/
def extractWaitDuration (step : String) : Nat :=
  match firstDigitRun step.data with
  | some run =>
    let v := digitsToNat run
    if jsIncludes (lowerStr step) "ms" || jsIncludes (lowerStr step) "millisecond" then v
    else v * 1000
  | none => 3000

/-- One parsed action, as produced by `parseTestSteps`. -/
structure ParsedAction where
  action : String
  target : Option String := none
  value : Option String := none
  deriving Repr, DecidableEq

/-- The per-step body of `parseTestSteps` (base-engine.ts lines 110-146). -/
def parseTestStep (step : String) : ParsedAction :=
  let ls := lowerStr step
  if jsIncludes ls "launch" || jsIncludes ls "open" then
    { action := "launch", target := some (extractTarget step) }
  else if jsIncludes ls "tap" || jsIncludes ls "click" then
    { action := "tap", target := some (extractTarget step) }
  else if jsIncludes ls "type" || jsIncludes ls "enter" then
    let tv := extractInputValues step
    { action := "input", target := some tv.1, value := some tv.2 }
  else if jsIncludes ls "verify" || jsIncludes ls "assert" then
    { action := "verify", target := some (extractTarget step) }
  else if jsIncludes ls "wait" then
    { action := "wait", value := some (toString (extractWaitDuration step)) }
  else if jsIncludes ls "scroll" then
    { action := "scroll", target := some (extractTarget step) }
  else if jsIncludes ls "swipe" then
    { action := "swipe", target := some (extractTarget step) }
  else
    { action := "custom", target := some step }

/-- `parseTestSteps` maps the per-step body over the steps. -/
def parseTestSteps (steps : List String) : List ParsedAction :=
  steps.map parseTestStep

/-! ## Spec-side reading of the parser (for the refinement claims) -/

/-- The eight action kinds named by the spec. -/
inductive ActionKind where
  | launch | tap | input | verify | wait | scroll | swipe | custom
  deriving DecidableEq, Repr

/-- The string literal the source uses for each action kind. -/
def kindLabel : ActionKind → String
  | .launch => "launch"
  | .tap => "tap"
  | .input => "input"
  | .verify => "verify"
  | .wait => "wait"
  | .scroll => "scroll"
  | .swipe => "swipe"
  | .custom => "custom"

/-- Follows the spec's words: the ordered rule list
`launch|open, tap|click, type|enter, verify|assert, wait, scroll, swipe`. -/
def specActionRules : List (ActionKind × List String) :=
  [(.launch, ["launch", "open"]),
   (.tap, ["tap", "click"]),
   (.input, ["type", "enter"]),
   (.verify, ["verify", "assert"]),
   (.wait, ["wait"]),
   (.scroll, ["scroll"]),
   (.swipe, ["swipe"])]

/-- First rule (in list order) one of whose trigger words occurs in the
lowercased step; `custom` when none matches. -/
def firstMatchingKind (ls : String) : List (ActionKind × List String) → ActionKind
  | [] => .custom
  | (k, pats) :: rest =>
    if pats.any (fun p => jsIncludes ls p) then k else firstMatchingKind ls rest

/-- Follows the spec's words: first-match-wins classification over the
ordered rule list, case-insensitive substring tests. -/
def specClassify (step : String) : ActionKind :=
  firstMatchingKind (lowerStr step) specActionRules

/-- Follows the spec's words: the first integer appearing in the step. -/
def specFirstInteger (step : String) : Option Nat :=
  (firstDigitRun step.data).map digitsToNat

/-- Follows the spec's words: the step mentions `ms` or `millisecond`
(case-insensitively). -/
def specMentionsMilliseconds (step : String) : Bool :=
  jsIncludes (lowerStr step) "ms" || jsIncludes (lowerStr step) "millisecond"

/-- Follows the claim's words for C5: in the fallback, split on the FIRST
occurrence of `into|in|to`, so the target is everything after that first
separator (verb and quotes stripped). -/
def extractInputValuesClaim (step : String) : String × String :=
  match typePatternFrom step.data with
  | some (v, t) => (String.mk t, String.mk v)
  | none =>
    match findSep step.data with
    | some (before, after) =>
      (String.mk (removeQuotesChars after), String.mk (removeQuotesChars (stripLeadVerb before)))
    | none => (step, "")

/-! ## Shared result data model (`src/types/index.ts`) -/

/-- The four result statuses. -/
inductive Status where
  | passed | failed | skipped | error
  deriving DecidableEq, Repr

/-- A test flow (`TestFlow` in base-engine.ts).  The `engine` tag is kept
as a string: at runtime it arrives from parsed JSON unchecked. -/
structure TestFlow where
  name : String
  description : String
  priority : String
  estimatedDuration : Nat
  engine : String
  steps : List String
  deriving DecidableEq, Repr

/-- Performance metrics attached to a result; only presence matters to
the layer verified here. -/
structure PerfData where
  memoryUsage : Option Nat := none
  cpuUsage : Option Nat := none
  loadTime : Option Nat := none
  deriving DecidableEq, Repr

/-- A per-flow test result (`TestResult` in the types module).  Times are
epoch milliseconds. -/
structure TestResult where
  testName : String
  engine : String
  status : Status
  duration : Int
  startTime : Nat
  endTime : Nat
  error : Option String := none
  screenshots : Option (List String) := none
  video : Option String := none
  logs : Option (List String) := none
  performance : Option PerfData := none
  deriving DecidableEq, Repr

/-- A test strategy (`TestStrategy` in the types module). -/
structure TestStrategy where
  primaryEngine : String
  fallbackEngine : Option String := none
  testFlows : List TestFlow
  rationale : String
  deriving DecidableEq, Repr

/-- `BaseEngine.createTestResult` (base-engine.ts lines 52-81): the
standard constructor, computing duration from the two timestamps. -/
def createTestResult (testName engine : String) (status : Status)
    (startTime endTime : Nat) (error : Option String)
    (screenshots : Option (List String)) (video : Option String)
    (logs : Option (List String)) (performance : Option PerfData) : TestResult :=
  { testName, engine, status, duration := (endTime : Int) - (startTime : Int),
    startTime, endTime, error, screenshots, video, logs, performance }

/-! ## Execution coordinator (`src/core/test-engine-manager.ts`) -/

/-- The three engine identities owned by the manager. -/
inductive EngineKind where
  | appium | maestro | playwright
  deriving DecidableEq, Repr

/-- `getEngine` (test-engine-manager.ts lines 137-148): adapter lookup by
the flow's engine tag; an unknown tag throws. -/
def getEngine (engineName : String) : Except String EngineKind :=
  if engineName = "appium" then .ok .appium
  else if engineName = "maestro" then .ok .maestro
  else if engineName = "playwright" then .ok .playwright
  else .error ("Unknown engine: " ++ engineName)

/-- Oracle environment for one `executeTestStrategy` call: the aggregated
outcome of `initializeEngines`, the outcome of each per-flow
`engine.executeTestFlow` call (`Except.error` models the call throwing),
the outcome of each engine's `cleanup()`, and the wall clock. -/
structure ManagerEnv where
  initOutcome : Except String Unit
  flowOutcome : EngineKind → TestFlow → Except String TestResult
  cleanupOutcome : EngineKind → Except String Unit
  now : Nat

/-- The synthetic result built in the per-flow `catch` block
(test-engine-manager.ts lines 77-85): status `error`, literal duration 0. -/
def syntheticErrorResult (env : ManagerEnv) (flow : TestFlow) (msg : String) : TestResult :=
  { testName := flow.name, engine := flow.engine, status := .error, duration := 0,
    startTime := env.now, endTime := env.now, error := some msg }

/-- One iteration of the flow loop (test-engine-manager.ts lines 48-89):
look up the engine and run the flow; any exception from either step is
caught and converted into the synthetic error result. -/
def flowIteration (env : ManagerEnv) (flow : TestFlow) : TestResult :=
  match getEngine flow.engine with
  | .error msg => syntheticErrorResult env flow msg
  | .ok eng =>
    match env.flowOutcome eng flow with
    | .ok r => r
    | .error msg => syntheticErrorResult env flow msg

/-- The running artifacts collection. -/
structure Artifacts where
  screenshots : List String := []
  videos : List String := []
  reports : List String := []
  deriving DecidableEq, Repr

/-- Artifact accumulation over the flow loop (lines 57-63): screenshot
lists are concatenated when present; a video path is kept when truthy
(non-empty). -/
def collectArtifacts (results : List TestResult) : Artifacts :=
  { screenshots := (results.map (fun r => r.screenshots.getD [])).flatten,
    videos := (results.map (fun r =>
      match r.video with
      | some v => if v = "" then [] else [v]
      | none => [])).flatten,
    reports := [] }

/-- The summary block (lines 95-104). -/
structure Summary where
  total : Nat
  passed : Nat
  failed : Nat
  skipped : Nat
  errors : Nat
  duration : Int
  startTime : Nat
  endTime : Nat
  deriving DecidableEq, Repr

/-- Count of results with a given status. -/
def countStatus (results : List TestResult) (s : Status) : Nat :=
  (results.filter (fun r => r.status == s)).length

/-- Build the summary from the collected results. -/
def buildSummary (results : List TestResult) (startTime endTime : Nat) : Summary :=
  { total := results.length,
    passed := countStatus results .passed,
    failed := countStatus results .failed,
    skipped := countStatus results .skipped,
    errors := countStatus results .error,
    duration := (endTime : Int) - (startTime : Int),
    startTime, endTime }

/-- The coverage estimate record. -/
structure Coverage where
  functional : ℚ
  visual : ℚ
  performance : ℚ
  accessibility : ℚ
  deriving DecidableEq, Repr

/-- Result is passed. -/
def isPassed (r : TestResult) : Bool := r.status == Status.passed

/-- Keyword filter for functional tests (lines 206-210). -/
def functionalKey (r : TestResult) : Bool :=
  jsIncludes (lowerStr r.testName) "function" || jsIncludes (lowerStr r.testName) "core" ||
  jsIncludes (lowerStr r.testName) "flow"

/-- Keyword filter for visual tests (lines 212-216). -/
def visualKey (r : TestResult) : Bool :=
  jsIncludes (lowerStr r.testName) "visual" || jsIncludes (lowerStr r.testName) "ui" ||
  jsIncludes (lowerStr r.testName) "interface"

/-- Keyword filter for performance tests (lines 218-222): keyword match
or the presence of performance metrics. -/
def performanceKey (r : TestResult) : Bool :=
  jsIncludes (lowerStr r.testName) "performance" || jsIncludes (lowerStr r.testName) "load" ||
  r.performance.isSome

/-- Keyword filter for accessibility tests (lines 224-227). -/
def accessibilityKey (r : TestResult) : Bool :=
  jsIncludes (lowerStr r.testName) "accessibility" || jsIncludes (lowerStr r.testName) "a11y"

/-- Pass rate of a result list as a percentage (`passed/total * 100`). -/
def passRate100 (l : List TestResult) : ℚ :=
  (((l.filter isPassed).length : ℚ) / (l.length : ℚ)) * 100

/-- `baselineScore` (line 203): overall pass rate, 0 on an empty list. -/
def coverageBaseline (results : List TestResult) : ℚ :=
  if results.length > 0 then passRate100 results else 0

/-- `calculateCoverage` (test-engine-manager.ts lines 193-243). -/
def calculateCoverage (results : List TestResult) (_strategy : TestStrategy) : Coverage :=
  let baseline := coverageBaseline results
  { functional :=
      if (results.filter functionalKey).length > 0 then passRate100 (results.filter functionalKey)
      else baseline,
    visual :=
      if (results.filter visualKey).length > 0 then passRate100 (results.filter visualKey)
      else max (baseline - 20) 0,
    performance :=
      if (results.filter performanceKey).length > 0 then passRate100 (results.filter performanceKey)
      else max (baseline - 30) 0,
    accessibility :=
      if (results.filter accessibilityKey).length > 0 then passRate100 (results.filter accessibilityKey)
      else max (baseline - 40) 0 }

/-- The aggregated suite result. -/
structure TestSuiteResult where
  summary : Summary
  results : List TestResult
  coverage : Coverage
  artifacts : Artifacts
  deriving DecidableEq, Repr

/-- The `try` body of `executeTestStrategy` (lines 43-123): initialize,
run the flow loop, build summary and coverage.  Only initialization can
throw out of the body; every per-flow failure is absorbed by
`flowIteration`. -/
def executeBody (env : ManagerEnv) (strategy : TestStrategy) : Except String TestSuiteResult :=
  match env.initOutcome with
  | .error e => .error ("Engine initialization failed: " ++ e)
  | .ok _ =>
    let results := strategy.testFlows.map (flowIteration env)
    .ok { summary := buildSummary results env.now env.now,
          results := results,
          coverage := calculateCoverage results strategy,
          artifacts := collectArtifacts results }

/-- Result of one `executeTestStrategy` call together with the trace of
`cleanup()` invocations performed by the `finally` block. -/
structure ExecOutcome where
  result : Except String TestSuiteResult
  cleanupCalls : List (EngineKind × Except String Unit)

/-- `cleanupEngines` (lines 174-188): each engine's `cleanup()` is called
once; a rejection is caught by the attached `.catch` handler and only
logged, so every entry resolves and nothing propagates. -/
def cleanupEngines (env : ManagerEnv) : List (EngineKind × Except String Unit) :=
  [(.appium, env.cleanupOutcome .appium),
   (.maestro, env.cleanupOutcome .maestro),
   (.playwright, env.cleanupOutcome .playwright)]

/-- `executeTestStrategy` (lines 26-132): the body inside `try`, a
`catch` that rewraps the error message, and a `finally` that always runs
`cleanupEngines` — on the normal path and on the throwing path alike. -/
def executeTestStrategy (env : ManagerEnv) (strategy : TestStrategy) : ExecOutcome :=
  { result :=
      match executeBody env strategy with
      | .ok r => .ok r
      | .error e => .error ("Test execution failed: " ++ e),
    cleanupCalls := cleanupEngines env }

/-! ## Concrete inputs used by the witnesses -/

/-- A concrete passing result for witness environments. -/
def wResult : TestResult :=
  { testName := "login flow", engine := "playwright", status := .passed, duration := 42,
    startTime := 0, endTime := 42, screenshots := some ["s1.png"], logs := some [] }

/-- A concrete flow on a known engine. -/
def wFlowGood : TestFlow :=
  { name := "login flow", description := "d", priority := "high",
    estimatedDuration := 60, engine := "playwright", steps := ["tap \"Login\""] }

/-- A concrete flow whose adapter call throws. -/
def wFlowBad : TestFlow :=
  { name := "broken flow", description := "d", priority := "low",
    estimatedDuration := 60, engine := "maestro", steps := ["wait"] }

/-- A concrete flow with an unknown engine tag. -/
def wFlowUnknown : TestFlow :=
  { name := "odd flow", description := "d", priority := "low",
    estimatedDuration := 10, engine := "selenium", steps := [] }

/-- A concrete manager environment: initialization succeeds, the adapter
call throws exactly for `wFlowBad`, cleanup succeeds. -/
def wEnv : ManagerEnv :=
  { initOutcome := .ok (),
    flowOutcome := fun _ f => if f.name = "broken flow" then .error "boom" else .ok wResult,
    cleanupOutcome := fun _ => .ok (),
    now := 7 }

/-- A concrete two-flow strategy. -/
def wStrategy : TestStrategy :=
  { primaryEngine := "playwright", testFlows := [wFlowGood, wFlowBad], rationale := "r" }

/-- A concrete strategy containing an unknown-engine flow between two
known-engine flows. -/
def wStrategyUnknown : TestStrategy :=
  { primaryEngine := "playwright", testFlows := [wFlowGood, wFlowUnknown, wFlowGood],
    rationale := "r" }

/-! ## Global and per-call configuration (`src/utils/config.ts`, types) -/

/-- One device entry of `TestConfig.devices`. -/
structure DeviceConfig where
  platform : String
  deviceName : String
  platformVersion : Option String := none
  udid : Option String := none
  deriving DecidableEq, Repr

/-- The per-call `TestConfig` (the fields this layer reads). -/
structure TestConfig where
  browsers : Option (List String) := none
  devices : Option (List DeviceConfig) := none
  timeout : Option Nat := none
  screenshotOnFailure : Bool := true
  videoRecording : Bool := false
  deriving DecidableEq, Repr

/-- The fields of the global `config` singleton that the engines read. -/
structure GlobalConfig where
  maestroCliPath : String := "maestro"
  playwrightBrowsers : List String := ["chromium"]
  screenshotOnFailure : Bool := true
  videoRecording : Bool := false
  defaultTimeout : Nat := 30000
  iosSimulatorUdid : Option String := none
  androidDeviceName : Option String := none
  deriving DecidableEq, Repr

/-! ## Shared per-action execution loop

`AppiumEngine.executeTestFlow` (lines 98-124) and
`PlaywrightEngine.executeTestFlow` (lines 94-120) contain the identical
action loop: push a step log line, execute the action, take a step
screenshot after `tap`/`input`/`verify`, and on an exception record a
step-indexed error, take a failure screenshot and `break`.  The loop is
embedded once and instantiated by both adapters.  The driver/page calls
inside `executeAction` and the screenshot capture are oracles; the
`attempted` field is ghost instrumentation counting how many actions were
attempted before the loop ended. -/

/-- JavaScript `o || d` for an optional string (undefined and `""` are
falsy). -/
def jsOrStr (o : Option String) (d : String) : String :=
  match o with
  | some s => if s = "" then d else s
  | none => d

/-- Action kinds after which a step screenshot is taken. -/
def isCriticalAction (a : String) : Bool :=
  a == "tap" || a == "input" || a == "verify"

/-- The log line pushed at the top of each loop iteration:
`Step ${i+1}: ${action.action} - ${action.target || action.value || ''}`. -/
def stepLogLine (i : Nat) (a : ParsedAction) : String :=
  "Step " ++ toString (i + 1) ++ ": " ++ a.action ++ " - " ++ jsOrStr a.target (jsOrStr a.value "")

/-- Oracles for one run of the action loop: the outcome of executing the
`i`-th action, and the screenshot capture (`none` models both the
screenshot policy being off and a failed capture, since `takeScreenshot`
catches internally and returns `undefined`). -/
structure StepLoopEnv where
  execOutcome : Nat → ParsedAction → Except String Unit
  shot : Nat → String → Option String

/-- Observable outcome of the action loop. -/
structure LoopResult where
  logs : List String
  screenshots : List String
  attempted : Nat
  failure : Option (Nat × String)
  deriving DecidableEq, Repr

/-- The action loop from index `i`. -/
def runLoopFrom (env : StepLoopEnv) : Nat → List ParsedAction → LoopResult
  | _, [] => { logs := [], screenshots := [], attempted := 0, failure := none }
  | i, a :: rest =>
    match env.execOutcome i a with
    | .ok _ =>
      let shot := if isCriticalAction a.action then env.shot i "step" else none
      let r := runLoopFrom env (i + 1) rest
      { logs := stepLogLine i a :: r.logs,
        screenshots := shot.toList ++ r.screenshots,
        attempted := r.attempted + 1,
        failure := r.failure }
    | .error m =>
      { logs := [stepLogLine i a],
        screenshots := (env.shot i "failure").toList,
        attempted := 1,
        failure := some (i, m) }

/-- The action loop over the whole action list. -/
def runActionLoop (env : StepLoopEnv) (actions : List ParsedAction) : LoopResult :=
  runLoopFrom env 0 actions

/-- Status after the loop: `failed` iff some action raised. -/
def loopStatus (r : LoopResult) : Status :=
  if r.failure.isSome then .failed else .passed

/-- The step-indexed error message set in the per-action `catch`:
`Step ${i+1} failed: ${message}`. -/
def loopError (r : LoopResult) : Option String :=
  r.failure.map (fun p => "Step " ++ toString (p.1 + 1) ++ " failed: " ++ p.2)

/-! ## Appium adapter (`AppiumEngine`) -/

/-- WebDriver capabilities (the fields the engine touches). -/
structure AppiumCapabilities where
  platformName : String
  platformVersion : Option String := none
  deviceName : String
  automationName : Option String := none
  udid : Option String := none
  noReset : Option Bool := none
  deriving DecidableEq, Repr

/-- The capabilities the engine starts with (appium-engine lines 11-16). -/
def defaultAppiumCaps : AppiumCapabilities :=
  { platformName := "iOS", deviceName := "iPhone Simulator",
    automationName := some "XCUITest", noReset := some true }

/-- The capability reconfiguration in `initialize` (lines 27-50). -/
def configureCapabilities (caps : AppiumCapabilities) (g : GlobalConfig)
    (testConfig : Option TestConfig) : AppiumCapabilities :=
  let caps1 :=
    match testConfig with
    | some tc =>
      match tc.devices with
      | some (device :: _) =>
        { caps with
          platformName := if device.platform = "ios" then "iOS" else "Android",
          deviceName := device.deviceName,
          platformVersion := device.platformVersion,
          udid := device.udid,
          automationName :=
            some (if device.platform = "ios" then "XCUITest" else "UIAutomator2") }
      | _ => caps
    | none => caps
  if caps1.platformName = "iOS" then
    let caps2 := { caps1 with automationName := some "XCUITest" }
    match g.iosSimulatorUdid with
    | some u => { caps2 with udid := some u }
    | none => caps2
  else
    let caps2 := { caps1 with automationName := some "UIAutomator2" }
    match g.androidDeviceName with
    | some d => { caps2 with deviceName := d }
    | none => caps2

/-- Mutable state of the Appium adapter; the WebDriver session handle is
opaque (`Option Unit`). -/
structure AppiumState where
  isInitialized : Bool
  config : Option TestConfig
  driver : Option Unit
  capabilities : AppiumCapabilities
  deriving DecidableEq, Repr

/-- Result of one lifecycle operation: the resolved/rejected outcome, the
adapter state afterwards, and the trace of external calls performed. -/
structure EngineStepRes (σ : Type) where
  result : Except String Unit
  state : σ
  calls : List String
  deriving Repr

/-- `AppiumEngine.initialize` (lines 18-79): immediate return when
already initialized; otherwise reconfigure capabilities, then open the
WebDriver session (`remote(options)`, modelled by the oracle).  On a
rejection the wrapped error propagates and the adapter stays
uninitialized, but the capabilities have already been mutated. -/
def appiumInitialize (st : AppiumState) (remoteOutcome : Except String Unit)
    (g : GlobalConfig) (testConfig : Option TestConfig) : EngineStepRes AppiumState :=
  if st.isInitialized then { result := .ok (), state := st, calls := [] }
  else
    let caps := configureCapabilities st.capabilities g testConfig
    match remoteOutcome with
    | .ok _ =>
      { result := .ok (),
        state := { isInitialized := true, config := testConfig, driver := some (),
                   capabilities := caps },
        calls := ["remote"] }
    | .error e =>
      { result := .error ("Appium initialization failed: " ++ e),
        state := { st with capabilities := caps },
        calls := ["remote"] }

/-- `AppiumEngine.cleanup` (lines 442-455): delete the session when one
exists; a rejection is logged and RETHROWN, skipping the
`isInitialized = false` reset. -/
def appiumCleanup (st : AppiumState) (deleteOutcome : Except String Unit) :
    EngineStepRes AppiumState :=
  match st.driver with
  | some _ =>
    match deleteOutcome with
    | .ok _ =>
      { result := .ok (), state := { st with driver := none, isInitialized := false },
        calls := ["deleteSession"] }
    | .error e => { result := .error e, state := st, calls := ["deleteSession"] }
  | none =>
    { result := .ok (), state := { st with isInitialized := false }, calls := [] }

/-- Oracles for one `AppiumEngine.executeTestFlow` call: the action loop
oracles, the performance-data collection (caught internally, so at most
an optional value) and the two timestamps. -/
structure AppiumFlowEnv extends StepLoopEnv where
  perf : Option PerfData
  startTime : Nat
  endTime : Nat

/-- `AppiumEngine.executeTestFlow` (lines 81-161): throw when not
initialized (caught by the outer handler into an `error` result), else
parse the steps once, run the action loop, collect performance data and
build the result via `createTestResult`. -/
def appiumExecuteTestFlow (st : AppiumState) (env : AppiumFlowEnv) (flow : TestFlow) :
    TestResult :=
  if !st.isInitialized || !st.driver.isSome then
    createTestResult flow.name "appium" .error env.startTime env.endTime
      (some "Appium engine not initialized") (some []) none (some []) none
  else
    let r := runActionLoop env.toStepLoopEnv (parseTestSteps flow.steps)
    createTestResult flow.name "appium" (loopStatus r) env.startTime env.endTime
      (loopError r) (some r.screenshots) none (some r.logs) env.perf

/-- Outcome of the Appium server status `fetch`: either the promise chain
threw, or a response arrived with `ok`, `value.ready` and `value.message`
fields (`none` models an absent field). -/
inductive FetchOutcome where
  | thrown (msg : String)
  | response (ok : Bool) (ready : Option Bool) (message : Option String)
  deriving DecidableEq, Repr

/-- The `details` payload of a health status: either a plain string or
the `{ready, message}` record (the `build` field is constant-irrelevant
and omitted). -/
inductive HealthDetails where
  | text (s : String)
  | statusInfo (ready : Bool) (message : String)
  deriving DecidableEq, Repr

/-- `AppiumEngine.getHealthStatus` (lines 416-440). -/
def appiumGetHealthStatus (env : FetchOutcome) : String × HealthDetails :=
  match env with
  | .thrown msg => ("error", .text msg)
  | .response ok ready message =>
    if !ok then ("unhealthy", .text "Server not responding")
    else ("healthy", .statusInfo (ready.getD false) (jsOrStr message "Unknown"))

/-! ## Maestro adapter (`MaestroEngine`) -/

/-- Mutable state of the Maestro adapter. -/
structure MaestroState where
  isInitialized : Bool
  config : Option TestConfig
  deriving DecidableEq, Repr

/-- Oracles for `MaestroEngine.initialize`: the `maestro --version`
probe and the temp-directory creation. -/
structure MaestroInitEnv where
  versionOutcome : Except String Unit
  mkdirOutcome : Except String Unit

/-- `MaestroEngine.initialize` (lines 15-37). -/
def maestroInitialize (st : MaestroState) (env : MaestroInitEnv)
    (testConfig : Option TestConfig) : EngineStepRes MaestroState :=
  if st.isInitialized then { result := .ok (), state := st, calls := [] }
  else
    match env.versionOutcome with
    | .error e =>
      { result := .error ("Maestro initialization failed: " ++ e), state := st,
        calls := ["versionCheck"] }
    | .ok _ =>
      match env.mkdirOutcome with
      | .error e =>
        { result := .error ("Maestro initialization failed: " ++ e), state := st,
          calls := ["versionCheck", "mkdirTemp"] }
      | .ok _ =>
        { result := .ok (), state := { isInitialized := true, config := testConfig },
          calls := ["versionCheck", "mkdirTemp"] }

/-- `MaestroEngine.cleanup` (lines 333-350): list the temp directory
(failure caught into `[]`), unlink every `.yaml` file (each failure
caught), then reset `isInitialized`.  Nothing in the body can throw. -/
def maestroCleanup (st : MaestroState) (tempFiles : List String) :
    EngineStepRes MaestroState :=
  { result := .ok (), state := { st with isInitialized := false },
    calls := (tempFiles.filter (fun f => f.endsWith ".yaml")).map (fun f => "unlink " ++ f) }

/-- JavaScript template interpolation of a possibly-undefined string. -/
def jsTemplate (o : Option String) : String :=
  match o with
  | some s => s
  | none => "undefined"

/-- JavaScript `parseInt(s, 10)`: leading whitespace skipped, maximal
leading digit run, `NaN` (here `none`) when there is none. -/
def jsParseInt (s : String) : Option Nat :=
  let cs := s.data.dropWhile jsWhitespace
  let run := cs.takeWhile Char.isDigit
  if run.isEmpty then none else some (digitsToNat run)

/-- Render a `parseInt` result the way a template literal would
(`NaN` for a failed parse). -/
def natOrNaN : Option Nat → String
  | some n => toString n
  | none => "NaN"

/-- The YAML block generated for one action
(`generateMaestroFlow`, lines 124-177). -/
def maestroActionYaml (a : ParsedAction) : String :=
  match a.action with
  | "launch" =>
    match a.target with
    | some t =>
      if t = "" then "      - launchApp\n"
      else "      - launchApp:\n          appId: \"" ++ t ++ "\"\n"
    | none => "      - launchApp\n"
  | "tap" => "      - tapOn:\n          text: \"" ++ jsTemplate a.target ++ "\"\n"
  | "input" =>
    match a.target, a.value with
    | some t, some v =>
      if t = "" || v = "" then ""
      else "      - tapOn:\n          text: \"" ++ t ++ "\"\n      - inputText: \"" ++ v ++ "\"\n"
    | _, _ => ""
  | "verify" => "      - assertVisible:\n          text: \"" ++ jsTemplate a.target ++ "\"\n"
  | "wait" =>
    "      - waitForAnimationToEnd:\n          timeout: " ++
      natOrNaN (jsParseInt (jsOrStr a.value "3000")) ++ "\n"
  | "scroll" => "      - scroll\n"
  | "swipe" => "      - swipe:\n          direction: \"" ++ jsOrStr a.target "up" ++ "\"\n"
  | "custom" =>
    "      # Custom action: " ++ jsTemplate a.target ++ "\n      - tapOn: \"" ++
      jsTemplate a.target ++ "\"\n"
  | other => "      # Unknown action: " ++ other ++ "\n"

/-- `generateMaestroFlow` (lines 112-180). -/
def generateMaestroFlow (flow : TestFlow) : String :=
  let actions := parseTestSteps flow.steps
  "# Generated Maestro flow for: " ++ flow.name ++ "\n" ++
  "# Description: " ++ flow.description ++ "\n\n" ++
  "flows:\n" ++
  "  - name: \"" ++ flow.name ++ "\"\n" ++
  "    steps:\n" ++
  String.join (actions.map maestroActionYaml)

/-- Split a character list at newlines. -/
def splitNl (cs : List Char) : List (List Char) :=
  cs.foldr
    (fun c acc =>
      if c = '\n' then [] :: acc
      else
        match acc with
        | h :: t => (c :: h) :: t
        | [] => [[c]])
    [[]]

/-- JavaScript `trim` (both ends). -/
def jsTrim (cs : List Char) : List Char :=
  ((cs.dropWhile jsWhitespace).reverse.dropWhile jsWhitespace).reverse

/-- `output.split('\n').filter(line => line.trim())`. -/
def maestroOutputLogs (s : String) : List String :=
  ((splitNl s.data).filter (fun l => !(jsTrim l).isEmpty)).map String.mk

/-- Captured outcome of the external `maestro test <file>` run.
`executeMaestroFlow` (lines 192-220) catches the non-zero-exit throw of
`exec` and always resolves with stdout, stderr and an exit code. -/
structure RunnerOut where
  stdout : String
  stderr : String
  exitCode : Nat
  deriving DecidableEq, Repr

/-- Oracles for one `MaestroEngine.executeTestFlow` call: the flow-file
write (which can throw), the runner outcome, the screenshot collection
(caught internally) and the timestamps. -/
structure MaestroFlowEnv where
  writeOutcome : Except String String
  runner : RunnerOut
  shots : List String
  startTime : Nat
  endTime : Nat

/-- `MaestroEngine.executeTestFlow` (lines 39-110): generate the YAML
flow, write it, run the external runner, mark the run `failed` on a
non-zero exit code with `stderr || 'Maestro flow execution failed'` as
the error, and fold stdout/stderr into the logs.  No per-action
execution, error indexing or failure screenshot exists here. -/
def maestroExecuteTestFlow (st : MaestroState) (env : MaestroFlowEnv) (flow : TestFlow) :
    TestResult :=
  if !st.isInitialized then
    createTestResult flow.name "maestro" .error env.startTime env.endTime
      (some "Maestro engine not initialized") (some []) none (some []) none
  else
    match env.writeOutcome with
    | .error e =>
      createTestResult flow.name "maestro" .error env.startTime env.endTime
        (some e) (some []) none (some []) none
    | .ok flowFile =>
      let yaml := generateMaestroFlow flow
      let status : Status := if env.runner.exitCode ≠ 0 then .failed else .passed
      let err : Option String :=
        if env.runner.exitCode ≠ 0 then
          some (if env.runner.stderr = "" then "Maestro flow execution failed"
                else env.runner.stderr)
        else none
      let logs :=
        ["Generated Maestro flow: " ++ flowFile, "Flow content:\n" ++ yaml] ++
        maestroOutputLogs env.runner.stdout ++ maestroOutputLogs env.runner.stderr
      createTestResult flow.name "maestro" status env.startTime env.endTime err
        (some env.shots) none (some logs) none

/-! ## Playwright adapter (`PlaywrightEngine`) -/

/-- Mutable state of the Playwright adapter; the browser/context/page
maps are modelled by their key lists. -/
structure PlaywrightState where
  isInitialized : Bool
  config : Option TestConfig
  browsers : List String
  contexts : List String
  pages : List String
  deriving DecidableEq, Repr

/-- Oracles for `PlaywrightEngine.initialize`: the two artifact-directory
creations and the per-browser launch. -/
structure PlaywrightInitEnv where
  mkdirVideoOutcome : Except String Unit
  mkdirShotOutcome : Except String Unit
  launchOutcome : String → Except String Unit

/-- `launchBrowser` (lines 170-202): unsupported names throw, supported
names delegate to the launch oracle; every failure is rewrapped as
`Failed to launch <name>: <msg>`. -/
def launchBrowser (env : PlaywrightInitEnv) (name : String) : Except String Unit :=
  let ln := lowerStr name
  if ln = "chromium" || ln = "chrome" || ln = "firefox" || ln = "webkit" || ln = "safari" then
    match env.launchOutcome name with
    | .ok _ => .ok ()
    | .error e => .error ("Failed to launch " ++ name ++ ": " ++ e)
  else
    .error ("Failed to launch " ++ name ++ ": Unsupported browser: " ++ name)

/-- Launch the configured browsers in order; returns the outcome, the
browsers actually added to the map (launch stops at the first failure,
keeping earlier successes) and the attempted names. -/
def launchAllBrowsers (env : PlaywrightInitEnv) :
    List String → Except String Unit × List String × List String
  | [] => (.ok (), [], [])
  | b :: rest =>
    match launchBrowser env b with
    | .ok _ =>
      let r := launchAllBrowsers env rest
      (r.1, b :: r.2.1, b :: r.2.2)
    | .error e => (.error e, [], [b])

/-- `PlaywrightEngine.initialize` (lines 16-45). -/
def playwrightInitialize (st : PlaywrightState) (env : PlaywrightInitEnv)
    (g : GlobalConfig) (testConfig : Option TestConfig) : EngineStepRes PlaywrightState :=
  if st.isInitialized then { result := .ok (), state := st, calls := [] }
  else
    match env.mkdirVideoOutcome with
    | .error e =>
      { result := .error ("Playwright initialization failed: " ++ e), state := st,
        calls := ["mkdirVideos"] }
    | .ok _ =>
      match env.mkdirShotOutcome with
      | .error e =>
        { result := .error ("Playwright initialization failed: " ++ e), state := st,
          calls := ["mkdirVideos", "mkdirScreenshots"] }
      | .ok _ =>
        let toLaunch :=
          match testConfig with
          | some tc =>
            match tc.browsers with
            | some l => l
            | none => g.playwrightBrowsers
          | none => g.playwrightBrowsers
        match launchAllBrowsers env toLaunch with
        | (.ok _, launched, attempted) =>
          { result := .ok (),
            state :=
              { isInitialized := true, config := testConfig,
                browsers := st.browsers ++ launched, contexts := st.contexts,
                pages := st.pages },
            calls := ["mkdirVideos", "mkdirScreenshots"] ++ attempted.map ("launch " ++ ·) }
        | (.error e, launched, attempted) =>
          { result := .error ("Playwright initialization failed: " ++ e),
            state := { st with browsers := st.browsers ++ launched },
            calls := ["mkdirVideos", "mkdirScreenshots"] ++ attempted.map ("launch " ++ ·) }

/-- `PlaywrightEngine.cleanup` (lines 534-560): close every page,
context and browser (each close is `.catch(() => {})`), clear the maps
and reset `isInitialized`.  Nothing in the body can throw. -/
def playwrightCleanup (st : PlaywrightState) : EngineStepRes PlaywrightState :=
  { result := .ok (),
    state := { st with pages := [], contexts := [], browsers := [], isInitialized := false },
    calls := st.pages.map ("closePage " ++ ·) ++ st.contexts.map ("closeContext " ++ ·) ++
      st.browsers.map ("closeBrowser " ++ ·) }

/-- Oracles for one `PlaywrightEngine.executeTestFlow` call.  Console /
page-error / failed-request listener log entries depend on page activity
below this layer and are not modelled. -/
structure PlaywrightFlowEnv extends StepLoopEnv where
  browsersAvailable : List String
  contextOutcome : Except String Unit
  closeOutcome : Except String Unit
  perf : Option PerfData
  videoPath : Option String
  videoRecording : Bool
  startTime : Nat
  endTime : Nat

/-- `PlaywrightEngine.executeTestFlow` (lines 47-168): guard on
initialization and on an available browser, create the context and page,
run the shared action loop, collect performance data, close the context
(a rejection here escapes to the outer handler, yielding an `error`
result that keeps the screenshots and logs gathered so far) and collect
the video when recording is on. -/
def playwrightExecuteTestFlow (st : PlaywrightState) (env : PlaywrightFlowEnv)
    (flow : TestFlow) : TestResult :=
  if !st.isInitialized then
    createTestResult flow.name "playwright" .error env.startTime env.endTime
      (some "Playwright engine not initialized") (some []) none (some []) none
  else
    match env.browsersAvailable with
    | [] =>
      createTestResult flow.name "playwright" .error env.startTime env.endTime
        (some "No browsers available") (some []) none (some []) none
    | _ :: _ =>
      match env.contextOutcome with
      | .error e =>
        createTestResult flow.name "playwright" .error env.startTime env.endTime
          (some e) (some []) none (some []) none
      | .ok _ =>
        let r := runActionLoop env.toStepLoopEnv (parseTestSteps flow.steps)
        match env.closeOutcome with
        | .error e =>
          createTestResult flow.name "playwright" .error env.startTime env.endTime
            (some e) (some r.screenshots) none (some r.logs) none
        | .ok _ =>
          let videoPath := if env.videoRecording then env.videoPath else none
          createTestResult flow.name "playwright" (loopStatus r) env.startTime env.endTime
            (loopError r) (some r.screenshots) videoPath (some r.logs) env.perf

/-! ## Concrete engine-level inputs used by witnesses and counterexamples -/

/-- A Maestro adapter state that is initialized. -/
def cxMaestroState : MaestroState := { isInitialized := true, config := none }

/-- A Maestro flow environment whose external runner exits non-zero with
`boom` on stderr. -/
def cxMaestroEnv : MaestroFlowEnv :=
  { writeOutcome := .ok "temp/maestro-flows/f_1.yaml",
    runner := { stdout := "", stderr := "boom", exitCode := 1 },
    shots := [], startTime := 0, endTime := 5 }

/-- A concrete one-step Maestro flow. -/
def cxFlow : TestFlow :=
  { name := "f", description := "d", priority := "high", estimatedDuration := 1,
    engine := "maestro", steps := ["tap \"X\""] }

/-- An initialized Appium adapter state holding a session. -/
def cxAppiumState : AppiumState :=
  { isInitialized := true, config := none, driver := some (),
    capabilities := defaultAppiumCaps }

/-- A step-loop environment whose second action throws `no such element`
and whose screenshot capture always succeeds. -/
def cxLoopEnv : StepLoopEnv :=
  { execOutcome := fun i _ => if i = 1 then .error "no such element" else .ok (),
    shot := fun i t => some (t ++ toString i ++ ".png") }

/-- A two-step flow whose parsed actions are `tap` then `verify`. -/
def cxTwoStepFlow : TestFlow :=
  { name := "g", description := "d", priority := "high", estimatedDuration := 1,
    engine := "appium", steps := ["tap \"A\"", "verify \"B\""] }

/-- An Appium flow environment built on `cxLoopEnv`. -/
def cxAppiumFlowEnv : AppiumFlowEnv :=
  { toStepLoopEnv := cxLoopEnv, perf := none, startTime := 0, endTime := 9 }

/-- A Playwright flow environment built on `cxLoopEnv`, with the context
available and closing cleanly. -/
def cxPlaywrightFlowEnv : PlaywrightFlowEnv :=
  { toStepLoopEnv := cxLoopEnv, browsersAvailable := ["chromium"],
    contextOutcome := .ok (), closeOutcome := .ok (), perf := none,
    videoPath := none, videoRecording := false, startTime := 0, endTime := 9 }

/-- An initialized Playwright adapter state. -/
def cxPlaywrightState : PlaywrightState :=
  { isInitialized := true, config := none, browsers := ["chromium"],
    contexts := [], pages := [] }

/-- A Maestro initialization environment where both probes succeed. -/
def cxMaestroInitEnv : MaestroInitEnv :=
  { versionOutcome := .ok (), mkdirOutcome := .ok () }

/-- C3: every step is classified first-match-wins over the ordered,
case-insensitive substring rule list `launch|open, tap|click, type|enter,
verify|assert, wait, scroll, swipe`, and a step matching no rule becomes a
`custom` action whose target is the raw step string (so a step containing
trigger words of two rules is classified by the earlier rule). -/
theorem parseTestStep_first_match_classification (step : String) :
    (parseTestStep step).action = kindLabel (specClassify step) ∧
    (specClassify step = ActionKind.custom →
      parseTestStep step = { action := "custom", target := some step, value := none }) := by
  unfold parseTestStep specClassify specActionRules
  simp only [firstMatchingKind, List.any_cons, List.any_nil, Bool.or_false]
  constructor
  · split_ifs <;> rfl
  · intro h
    split_ifs at h ⊢
    all_goals simp_all [kindLabel]

/-- Witness for C3: a step with no trigger word is `custom` with the raw
step as target, and a step containing both `open` (rule 1) and `tap`
(rule 2) is classified by the earlier rule (`launch`). -/
theorem parseTestStep_first_match_classification_witness :
    parseTestStep "frobnicate the widget" =
      { action := "custom", target := some "frobnicate the widget", value := none } ∧
    (parseTestStep "Open settings and tap name").action = "launch" := by
  constructor
  · exact (parseTestStep_first_match_classification "frobnicate the widget").2 (by decide)
  · have h := (parseTestStep_first_match_classification "Open settings and tap name").1
    rw [h]
    decide

/-- C4: wait-duration extraction takes the first integer in the string;
with `ms`/`millisecond` present it is literal milliseconds, otherwise it
is seconds multiplied by 1000; with no integer the default is 3000 ms.
Concretely `wait 5 seconds` yields 5000, `wait 500 ms` yields 500 and
`wait` alone yields 3000. -/
theorem extractWaitDuration_matches_claim :
    (∀ step : String, extractWaitDuration step =
      match specFirstInteger step with
      | none => 3000
      | some n => if specMentionsMilliseconds step then n else n * 1000) ∧
    extractWaitDuration "wait 5 seconds" = 5000 ∧
    extractWaitDuration "wait 500 ms" = 500 ∧
    extractWaitDuration "wait" = 3000 := by
  refine ⟨fun step => ?_, by decide, by decide, by decide⟩
  unfold extractWaitDuration specFirstInteger specMentionsMilliseconds
  cases h : firstDigitRun step.data <;> simp [h]

/-- C5 counterexample: on `enter a in b to c` the code splits on ALL
occurrences of `into|in|to` and takes the fragment between the first and
second separators as target (`"b "`), whereas the claim's
split-on-first-occurrence reading demands everything after the first
separator (`"b to c"`). -/
theorem extractInputValues_counterexample :
    extractInputValues "enter a in b to c" = ("b ", "a ") ∧
    extractInputValuesClaim "enter a in b to c" = ("b to c", "a ") ∧
    extractInputValues "enter a in b to c" ≠
      extractInputValuesClaim "enter a in b to c" := by
  refine ⟨by decide, by decide, by decide⟩

/-- C5 amended: input extraction first tries the pattern
`type "V" into "T"`, yielding `(target T, value V)`; otherwise the step is
split at every occurrence of `into|in|to` followed by whitespace, the verb
and quotes are stripped from the first fragment giving the value and the
quotes from the second fragment giving the target (text after a second
separator is dropped); with no separator the result is
`(target = full step, value = "")`. -/
theorem extractInputValues_amended (step : String) :
    (∀ v t, typePatternFrom step.data = some (v, t) →
      extractInputValues step = (String.mk t, String.mk v)) ∧
    (∀ p0 p1 rest, typePatternFrom step.data = none →
      jsSplitSep step.data = p0 :: p1 :: rest →
      extractInputValues step =
        (String.mk (removeQuotesChars p1),
         String.mk (removeQuotesChars (stripLeadVerb p0)))) ∧
    (∀ p, typePatternFrom step.data = none → jsSplitSep step.data = [p] →
      extractInputValues step = (step, "")) := by
  unfold extractInputValues
  refine ⟨fun v t h => ?_, fun p0 p1 rest h1 h2 => ?_, fun p h1 h2 => ?_⟩ <;>
    simp_all

/-- Witness for C5 amended: all three branches at concrete steps. -/
theorem extractInputValues_amended_witness :
    extractInputValues "type \"abc\" into \"name field\"" = ("name field", "abc") ∧
    extractInputValues "enter foo in bar" = ("bar", "foo ") ∧
    extractInputValues "just some text" = ("just some text", "") := by
  refine ⟨?_, ?_, ?_⟩
  · exact (extractInputValues_amended "type \"abc\" into \"name field\"").1
      "abc".data "name field".data (by decide)
  · exact (extractInputValues_amended "enter foo in bar").2.1
      "enter foo ".data "bar".data [] (by decide) (by decide)
  · exact (extractInputValues_amended "just some text").2.2
      "just some text".data (by decide) (by decide)

/-! ## Coordinator theorems -/

/-- C1: when initialization succeeds, `executeTestStrategy` returns a
suite whose results list has exactly one entry per flow, in flow order;
a flow whose adapter call throws contributes a synthetic `error` result
instead of aborting the run. -/
theorem executeTestStrategy_one_result_per_flow (env : ManagerEnv) (strategy : TestStrategy)
    (hinit : env.initOutcome = Except.ok ()) :
    ∃ suite, (executeTestStrategy env strategy).result = Except.ok suite ∧
      suite.results.length = strategy.testFlows.length ∧
      suite.results = strategy.testFlows.map (flowIteration env) ∧
      ∀ flow eng msg, getEngine flow.engine = Except.ok eng →
        env.flowOutcome eng flow = Except.error msg →
        flowIteration env flow =
          { testName := flow.name, engine := flow.engine, status := Status.error,
            duration := 0, startTime := env.now, endTime := env.now, error := some msg } := by
  refine ⟨{ summary := buildSummary (strategy.testFlows.map (flowIteration env)) env.now env.now,
            results := strategy.testFlows.map (flowIteration env),
            coverage := calculateCoverage (strategy.testFlows.map (flowIteration env)) strategy,
            artifacts := collectArtifacts (strategy.testFlows.map (flowIteration env)) },
          ?_, ?_, rfl, ?_⟩
  · simp [executeTestStrategy, executeBody, hinit]
  · exact List.length_map _ _
  · intro flow eng msg hge hfo
    simp [flowIteration, hge, hfo, syntheticErrorResult]

/-- Witness for C1: a concrete run over one passing flow and one flow
whose adapter call throws yields an `ok` suite with two results, the
second being the synthetic error result. -/
theorem executeTestStrategy_one_result_per_flow_witness :
    ∃ suite, (executeTestStrategy wEnv wStrategy).result = Except.ok suite ∧
      suite.results.length = 2 ∧
      suite.results = [wResult,
        { testName := "broken flow", engine := "maestro", status := Status.error,
          duration := 0, startTime := 7, endTime := 7, error := some "boom" }] := by
  obtain ⟨suite, h1, h2, h3, _⟩ :=
    executeTestStrategy_one_result_per_flow wEnv wStrategy rfl
  refine ⟨suite, h1, ?_, ?_⟩
  · rw [h2]; rfl
  · rw [h3]; rfl

/-- Bounds for one coverage entry of the shape produced by
`calculateCoverage`. -/
theorem coverageEntry_bounds (l : List TestResult) (q : ℚ) (h0 : 0 ≤ q) (h100 : q ≤ 100) :
    0 ≤ (if l.length > 0 then passRate100 l else q) ∧
      (if l.length > 0 then passRate100 l else q) ≤ 100 := by
  have hr0 : 0 ≤ passRate100 l := by unfold passRate100; positivity
  have hr1 : passRate100 l ≤ 100 := by
    unfold passRate100
    rcases Nat.eq_zero_or_pos l.length with h | h
    · rw [h]; simp
    · have hle : ((l.filter isPassed).length : ℚ) ≤ (l.length : ℚ) := by
        exact_mod_cast List.length_filter_le _ l
      have hpos : (0 : ℚ) < (l.length : ℚ) := by exact_mod_cast h
      have hdiv : ((l.filter isPassed).length : ℚ) / (l.length : ℚ) ≤ 1 :=
        (div_le_one hpos).mpr hle
      nlinarith
  split_ifs
  · exact ⟨hr0, hr1⟩
  · exact ⟨h0, h100⟩

/-- The baseline score is a percentage. -/
theorem coverageBaseline_bounds (results : List TestResult) :
    0 ≤ coverageBaseline results ∧ coverageBaseline results ≤ 100 := by
  unfold coverageBaseline
  split_ifs with h
  · have := coverageEntry_bounds results 0 le_rfl (by norm_num)
    constructor
    · unfold passRate100; positivity
    · have hle : ((results.filter isPassed).length : ℚ) ≤ (results.length : ℚ) := by
        exact_mod_cast List.length_filter_le _ results
      have hpos : (0 : ℚ) < (results.length : ℚ) := by exact_mod_cast h
      have hdiv : ((results.filter isPassed).length : ℚ) / (results.length : ℚ) ≤ 1 :=
        (div_le_one hpos).mpr hle
      unfold passRate100
      nlinarith
  · norm_num

/-- C7: each of the four coverage values lies in `[0, 100]`, and when a
category's filter matches no result the value is
`max (overall pass rate − penalty, 0)` with penalties 0, 20, 30, 40. -/
theorem calculateCoverage_bounds (results : List TestResult) (strategy : TestStrategy) :
    (0 ≤ (calculateCoverage results strategy).functional ∧
      (calculateCoverage results strategy).functional ≤ 100) ∧
    (0 ≤ (calculateCoverage results strategy).visual ∧
      (calculateCoverage results strategy).visual ≤ 100) ∧
    (0 ≤ (calculateCoverage results strategy).performance ∧
      (calculateCoverage results strategy).performance ≤ 100) ∧
    (0 ≤ (calculateCoverage results strategy).accessibility ∧
      (calculateCoverage results strategy).accessibility ≤ 100) ∧
    (results.filter functionalKey = [] →
      (calculateCoverage results strategy).functional = max (coverageBaseline results - 0) 0) ∧
    (results.filter visualKey = [] →
      (calculateCoverage results strategy).visual = max (coverageBaseline results - 20) 0) ∧
    (results.filter performanceKey = [] →
      (calculateCoverage results strategy).performance = max (coverageBaseline results - 30) 0) ∧
    (results.filter accessibilityKey = [] →
      (calculateCoverage results strategy).accessibility = max (coverageBaseline results - 40) 0) := by
  obtain ⟨hb0, hb1⟩ := coverageBaseline_bounds results
  have hmax0 : ∀ d : ℚ, 0 ≤ max (coverageBaseline results - d) 0 := fun d => le_max_right _ _
  have hmax1 : ∀ d : ℚ, 0 ≤ d → max (coverageBaseline results - d) 0 ≤ 100 := by
    intro d hd
    exact max_le (by linarith) (by norm_num)
  simp only [calculateCoverage]
  refine ⟨coverageEntry_bounds _ _ hb0 hb1,
    coverageEntry_bounds _ _ (hmax0 20) (hmax1 20 (by norm_num)),
    coverageEntry_bounds _ _ (hmax0 30) (hmax1 30 (by norm_num)),
    coverageEntry_bounds _ _ (hmax0 40) (hmax1 40 (by norm_num)),
    ?_, ?_, ?_, ?_⟩ <;> intro h <;> simp [h]
  exact hb0

/-- Witness for C7: the bounds and all four empty-category fallbacks at
the empty result list, where every coverage value is 0. -/
theorem calculateCoverage_bounds_witness :
    (0 ≤ (calculateCoverage [] wStrategy).functional ∧
      (calculateCoverage [] wStrategy).functional ≤ 100) ∧
    (calculateCoverage [] wStrategy).visual = max (coverageBaseline [] - 20) 0 ∧
    (calculateCoverage [] wStrategy).accessibility = max (coverageBaseline [] - 40) 0 := by
  obtain ⟨hf, _, _, _, _, hv, _, ha⟩ := calculateCoverage_bounds [] wStrategy
  exact ⟨hf, hv rfl, ha rfl⟩

/-- C8: the `finally` block calls `cleanup()` on each of the three
adapters exactly once per `executeTestStrategy` call, on every exit path,
and the produced result does not depend on the cleanup outcomes (cleanup
failures are swallowed, never re-raised). -/
theorem executeTestStrategy_cleanup_once (env : ManagerEnv) (strategy : TestStrategy) :
    (executeTestStrategy env strategy).cleanupCalls =
      [(EngineKind.appium, env.cleanupOutcome .appium),
       (EngineKind.maestro, env.cleanupOutcome .maestro),
       (EngineKind.playwright, env.cleanupOutcome .playwright)] ∧
    (executeTestStrategy env strategy).cleanupCalls.map Prod.fst =
      [EngineKind.appium, EngineKind.maestro, EngineKind.playwright] ∧
    ∀ c : EngineKind → Except String Unit,
      (executeTestStrategy { env with cleanupOutcome := c } strategy).result =
        (executeTestStrategy env strategy).result :=
  ⟨rfl, rfl, fun _ => rfl⟩

/-- C10: a flow with an unknown engine tag does not make the run throw:
its entry in the results list is a synthetic `error` result with duration
0 and an error message naming the unknown engine, and the surrounding
flows are processed normally. -/
theorem unknown_engine_yields_error_result (env : ManagerEnv) (strategy : TestStrategy)
    (flow : TestFlow) (flows1 flows2 : List TestFlow)
    (hinit : env.initOutcome = Except.ok ())
    (hne1 : flow.engine ≠ "appium") (hne2 : flow.engine ≠ "maestro")
    (hne3 : flow.engine ≠ "playwright")
    (hflows : strategy.testFlows = flows1 ++ flow :: flows2) :
    ∃ suite, (executeTestStrategy env strategy).result = Except.ok suite ∧
      suite.results = flows1.map (flowIteration env) ++
        { testName := flow.name, engine := flow.engine, status := Status.error,
          duration := 0, startTime := env.now, endTime := env.now,
          error := some ("Unknown engine: " ++ flow.engine) } ::
        flows2.map (flowIteration env) := by
  have hg : getEngine flow.engine = .error ("Unknown engine: " ++ flow.engine) := by
    unfold getEngine
    rw [if_neg hne1, if_neg hne2, if_neg hne3]
  refine ⟨{ summary := buildSummary (strategy.testFlows.map (flowIteration env)) env.now env.now,
            results := strategy.testFlows.map (flowIteration env),
            coverage := calculateCoverage (strategy.testFlows.map (flowIteration env)) strategy,
            artifacts := collectArtifacts (strategy.testFlows.map (flowIteration env)) },
          ?_, ?_⟩
  · simp [executeTestStrategy, executeBody, hinit]
  · simp [hflows, flowIteration, hg, syntheticErrorResult]

/-- Witness for C10: a concrete strategy with a `selenium`-tagged flow
between two playwright flows. -/
theorem unknown_engine_yields_error_result_witness :
    ∃ suite, (executeTestStrategy wEnv wStrategyUnknown).result = Except.ok suite ∧
      suite.results = [wResult,
        { testName := "odd flow", engine := "selenium", status := Status.error,
          duration := 0, startTime := 7, endTime := 7,
          error := some "Unknown engine: selenium" }, wResult] := by
  obtain ⟨suite, h1, h2⟩ :=
    unknown_engine_yields_error_result wEnv wStrategyUnknown wFlowUnknown
      [wFlowGood] [wFlowGood] rfl (by decide) (by decide) (by decide) rfl
  refine ⟨suite, h1, ?_⟩
  rw [h2]; rfl

/-! ## Engine theorems -/

/-- When the first `k` actions succeed and action `k` throws, the action
loop attempts exactly `k + 1` actions, records the failure at absolute
index `i + k`, logs one line per attempted action, and the failure
screenshot (when captured) is the last screenshot. -/
theorem runLoopFrom_first_failure (env : StepLoopEnv) (actions : List ParsedAction) :
    ∀ (i k : Nat) (msg : String) (hk : k < actions.length),
      (∀ j (hj : j < k), env.execOutcome (i + j) (actions.get ⟨j, hj.trans hk⟩) = Except.ok ()) →
      env.execOutcome (i + k) (actions.get ⟨k, hk⟩) = Except.error msg →
      (runLoopFrom env i actions).attempted = k + 1 ∧
      (runLoopFrom env i actions).failure = some (i + k, msg) ∧
      (runLoopFrom env i actions).logs.length = k + 1 ∧
      (∀ p, env.shot (i + k) "failure" = some p →
        (runLoopFrom env i actions).screenshots.getLast? = some p) := by
  induction actions with
  | nil =>
    intro i k msg hk
    simp at hk
  | cons a rest ih =>
    intro i k msg hk hok hfail
    cases k with
    | zero =>
      have ha : env.execOutcome i a = Except.error msg := by simpa using hfail
      refine ⟨by simp [runLoopFrom, ha], by simp [runLoopFrom, ha],
        by simp [runLoopFrom, ha], ?_⟩
      intro p hp
      simp only [Nat.add_zero] at hp
      simp [runLoopFrom, ha, hp]
    | succ k2 =>
      have hk2 : k2 < rest.length := Nat.lt_of_succ_lt_succ hk
      have ha : env.execOutcome i a = Except.ok () := by
        have h0 := hok 0 (Nat.succ_pos k2)
        simpa using h0
      have harith : ∀ j : Nat, i + (j + 1) = i + 1 + j := by omega
      have hok2 : ∀ j (hj : j < k2),
          env.execOutcome (i + 1 + j) (rest.get ⟨j, hj.trans hk2⟩) = Except.ok () := by
        intro j hj
        have := hok (j + 1) (Nat.succ_lt_succ hj)
        rw [harith j] at this
        simpa using this
      have hfail2 : env.execOutcome (i + 1 + k2) (rest.get ⟨k2, hk2⟩) = Except.error msg := by
        have := hfail
        rw [harith k2] at this
        simpa using this
      obtain ⟨h1, h2, h3, h4⟩ := ih (i + 1) k2 msg hk2 hok2 hfail2
      refine ⟨?_, ?_, ?_, ?_⟩
      · simp [runLoopFrom, ha, h1]
      · simp [runLoopFrom, ha, h2, Prod.ext_iff]
        omega
      · simp [runLoopFrom, ha, h3]
      · intro p hp
        rw [harith k2] at hp
        have hlast := h4 p hp
        have hne : (runLoopFrom env (i + 1) rest).screenshots ≠ [] := by
          intro hnil
          rw [hnil] at hlast
          simp at hlast
        simp only [runLoopFrom, ha]
        rw [List.getLast?_append_of_ne_nil _ hne]
        exact hlast

/-- C2 counterexample: `MaestroEngine.executeTestFlow` has no per-action
error handling at all.  On an initialized adapter with a failing external
run (exit code 1, stderr `boom`), the result error is the raw stderr
`boom`, not a message indexed by a 1-based step number (it does not even
begin with `Step `), and no failure screenshot is taken. -/
theorem maestro_executeTestFlow_not_step_indexed :
    (maestroExecuteTestFlow cxMaestroState cxMaestroEnv cxFlow).status = Status.failed ∧
    (maestroExecuteTestFlow cxMaestroState cxMaestroEnv cxFlow).error = some "boom" ∧
    startsWithChars "Step ".data "boom".data = false ∧
    (maestroExecuteTestFlow cxMaestroState cxMaestroEnv cxFlow).screenshots = some [] := by
  refine ⟨by decide, by decide, by decide, by decide⟩

/-- C2 amended: in the Appium and Playwright adapters (which share the
identical action loop), actions run in order and the first exception
produces a step-indexed error message, status `failed`, a trailing
failure-tagged screenshot and no further action attempts; the Maestro
adapter diverges: it compiles the flow to YAML, delegates to the external
runner, and marks the run `failed` exactly when the exit code is nonzero,
with `stderr` (or a generic message) as the error. -/
theorem executeTestFlow_error_handling_shape :
    (∀ (env : StepLoopEnv) (actions : List ParsedAction) (k : Nat) (msg : String)
      (hk : k < actions.length),
      (∀ j (hj : j < k), env.execOutcome j (actions.get ⟨j, hj.trans hk⟩) = Except.ok ()) →
      env.execOutcome k (actions.get ⟨k, hk⟩) = Except.error msg →
      (runActionLoop env actions).attempted = k + 1 ∧
      loopStatus (runActionLoop env actions) = Status.failed ∧
      loopError (runActionLoop env actions) =
        some ("Step " ++ toString (k + 1) ++ " failed: " ++ msg) ∧
      (∀ p, env.shot k "failure" = some p →
        (runActionLoop env actions).screenshots.getLast? = some p)) ∧
    (∀ (st : AppiumState) (env : AppiumFlowEnv) (flow : TestFlow),
      st.isInitialized = true → st.driver = some () →
      appiumExecuteTestFlow st env flow =
        createTestResult flow.name "appium"
          (loopStatus (runActionLoop env.toStepLoopEnv (parseTestSteps flow.steps)))
          env.startTime env.endTime
          (loopError (runActionLoop env.toStepLoopEnv (parseTestSteps flow.steps)))
          (some (runActionLoop env.toStepLoopEnv (parseTestSteps flow.steps)).screenshots)
          none
          (some (runActionLoop env.toStepLoopEnv (parseTestSteps flow.steps)).logs)
          env.perf) ∧
    (∀ (st : PlaywrightState) (env : PlaywrightFlowEnv) (flow : TestFlow),
      st.isInitialized = true → env.browsersAvailable ≠ [] →
      env.contextOutcome = Except.ok () → env.closeOutcome = Except.ok () →
      playwrightExecuteTestFlow st env flow =
        createTestResult flow.name "playwright"
          (loopStatus (runActionLoop env.toStepLoopEnv (parseTestSteps flow.steps)))
          env.startTime env.endTime
          (loopError (runActionLoop env.toStepLoopEnv (parseTestSteps flow.steps)))
          (some (runActionLoop env.toStepLoopEnv (parseTestSteps flow.steps)).screenshots)
          (if env.videoRecording then env.videoPath else none)
          (some (runActionLoop env.toStepLoopEnv (parseTestSteps flow.steps)).logs)
          env.perf) ∧
    (∀ (st : MaestroState) (env : MaestroFlowEnv) (flow : TestFlow) (f : String),
      st.isInitialized = true → env.writeOutcome = Except.ok f →
      ((maestroExecuteTestFlow st env flow).status = Status.failed ↔
        env.runner.exitCode ≠ 0) ∧
      (env.runner.exitCode ≠ 0 →
        (maestroExecuteTestFlow st env flow).error =
          some (if env.runner.stderr = "" then "Maestro flow execution failed"
                else env.runner.stderr))) := by
  refine ⟨?_, ?_, ?_, ?_⟩
  · intro env actions k msg hk hok hfail
    obtain ⟨h1, h2, h3, h4⟩ :=
      runLoopFrom_first_failure env actions 0 k msg hk
        (by intro j hj; simpa using hok j hj) (by simpa using hfail)
    refine ⟨h1, ?_, ?_, ?_⟩
    · unfold loopStatus runActionLoop
      rw [h2]
      rfl
    · unfold loopError runActionLoop
      rw [h2]
      simp
    · intro p hp
      exact h4 p (by simpa using hp)
  · intro st env flow h1 h2
    simp [appiumExecuteTestFlow, h1, h2]
  · intro st env flow h1 h2 h3 h4
    cases hb : env.browsersAvailable with
    | nil => exact absurd hb h2
    | cons b bs => simp [playwrightExecuteTestFlow, h1, hb, h3, h4]
  · intro st env flow f h1 h2
    constructor
    · simp only [maestroExecuteTestFlow, h1, h2, createTestResult, Bool.not_true,
        Bool.false_eq_true, if_false]
      split_ifs with hc
      · simp [hc]
      · simp [hc]
    · intro hc
      simp [maestroExecuteTestFlow, h1, h2, createTestResult, hc]

/-- Witness for C2 amended: a two-action loop whose second action throws,
instantiated through the Appium and Playwright adapters, and the failing
Maestro run. -/
theorem executeTestFlow_error_handling_shape_witness :
    (runActionLoop cxLoopEnv (parseTestSteps cxTwoStepFlow.steps)).attempted = 2 ∧
    loopStatus (runActionLoop cxLoopEnv (parseTestSteps cxTwoStepFlow.steps)) = Status.failed ∧
    loopError (runActionLoop cxLoopEnv (parseTestSteps cxTwoStepFlow.steps)) =
      some "Step 2 failed: no such element" ∧
    (runActionLoop cxLoopEnv (parseTestSteps cxTwoStepFlow.steps)).screenshots.getLast? =
      some "failure1.png" ∧
    (appiumExecuteTestFlow cxAppiumState cxAppiumFlowEnv cxTwoStepFlow).status = Status.failed ∧
    (playwrightExecuteTestFlow cxPlaywrightState cxPlaywrightFlowEnv cxTwoStepFlow).error =
      some "Step 2 failed: no such element" ∧
    ((maestroExecuteTestFlow cxMaestroState cxMaestroEnv cxFlow).status = Status.failed ↔
      (1 : Nat) ≠ 0) := by
  obtain ⟨hloop, happium, hplaywright, hmaestro⟩ := executeTestFlow_error_handling_shape
  obtain ⟨h1, h2, h3, h4⟩ :=
    hloop cxLoopEnv (parseTestSteps cxTwoStepFlow.steps) 1 "no such element"
      (by decide)
      (by intro j hj; interval_cases j; rfl)
      (by rfl)
  have hA := happium cxAppiumState cxAppiumFlowEnv cxTwoStepFlow rfl rfl
  have hP := hplaywright cxPlaywrightState cxPlaywrightFlowEnv cxTwoStepFlow rfl
    (by decide) rfl rfl
  have hM := hmaestro cxMaestroState cxMaestroEnv cxFlow "temp/maestro-flows/f_1.yaml" rfl rfl
  refine ⟨h1, h2, ?_, h4 "failure1.png" rfl, ?_, ?_, ?_⟩
  · rw [h3]; rfl
  · rw [hA]; simpa [createTestResult] using h2
  · rw [hP]
    have hp3 := h3
    simpa [createTestResult] using hp3
  · exact hM.1

/-- C6 counterexample: with the status endpoint reachable (`response.ok`)
but the readiness flag `false`, `getHealthStatus` still reports
`healthy` — the readiness flag is only copied into the details, never
consulted for the status. -/
theorem appiumGetHealthStatus_ready_ignored :
    appiumGetHealthStatus (FetchOutcome.response true (some false) none) =
      ("healthy", HealthDetails.statusInfo false "Unknown") := by
  rfl

/-- C6 amended: the status is `healthy` iff the status-endpoint fetch
resolves with an ok response, regardless of the readiness flag (which is
only reported in the details); a non-ok response yields `unhealthy` with
a fixed detail string, and an exception yields `error` with the
exception message as detail. -/
theorem appiumGetHealthStatus_amended (env : FetchOutcome) :
    ((appiumGetHealthStatus env).1 = "healthy" ↔
      ∃ ready message, env = FetchOutcome.response true ready message) ∧
    (∀ msg, env = FetchOutcome.thrown msg →
      appiumGetHealthStatus env = ("error", HealthDetails.text msg)) ∧
    (∀ ready message, env = FetchOutcome.response false ready message →
      appiumGetHealthStatus env = ("unhealthy", HealthDetails.text "Server not responding")) ∧
    (∀ ready message, env = FetchOutcome.response true ready message →
      appiumGetHealthStatus env =
        ("healthy", HealthDetails.statusInfo (ready.getD false) (jsOrStr message "Unknown"))) := by
  cases env with
  | thrown m =>
    refine ⟨?_, ?_, ?_, ?_⟩
    · constructor
      · intro h
        have h2 : ("error" : String) = "healthy" := h
        exact absurd h2 (by decide)
      · rintro ⟨r, m2, h⟩
        exact FetchOutcome.noConfusion h
    · intro msg h
      injection h with hm
      subst hm
      rfl
    · intro ready message h
      exact FetchOutcome.noConfusion h
    · intro ready message h
      exact FetchOutcome.noConfusion h
  | response ok ready message =>
    cases ok with
    | false =>
      refine ⟨?_, ?_, ?_, ?_⟩
      · constructor
        · intro h
          have hu : ("unhealthy" : String) = "healthy" := h
          exact absurd hu (by decide)
        · rintro ⟨r, m2, h⟩
          injection h with h1 h2 h3
          exact absurd h1 (by decide)
      · intro msg h
        exact FetchOutcome.noConfusion h
      · intro r m2 h
        rfl
      · intro r m2 h
        injection h with h1 h2 h3
        exact absurd h1 (by decide)
    | true =>
      refine ⟨?_, ?_, ?_, ?_⟩
      · constructor
        · intro _
          exact ⟨ready, message, rfl⟩
        · intro _
          rfl
      · intro msg h
        exact FetchOutcome.noConfusion h
      · intro r m2 h
        injection h with h1 h2 h3
        exact absurd h1 (by decide)
      · intro r m2 h
        injection h with h1 h2 h3
        subst h2
        subst h3
        rfl

/-- Witness for C6 amended: all three response shapes at concrete
inputs. -/
theorem appiumGetHealthStatus_amended_witness :
    appiumGetHealthStatus (FetchOutcome.thrown "ECONNREFUSED") =
      ("error", HealthDetails.text "ECONNREFUSED") ∧
    appiumGetHealthStatus (FetchOutcome.response false none none) =
      ("unhealthy", HealthDetails.text "Server not responding") ∧
    appiumGetHealthStatus (FetchOutcome.response true (some true) (some "ready")) =
      ("healthy", HealthDetails.statusInfo true "ready") := by
  refine ⟨(appiumGetHealthStatus_amended _).2.1 _ rfl,
    (appiumGetHealthStatus_amended _).2.2.1 none none rfl, ?_⟩
  have h := (appiumGetHealthStatus_amended (FetchOutcome.response true (some true)
    (some "ready"))).2.2.2 (some true) (some "ready") rfl
  rw [h]
  rfl

/-- C9 counterexample: when `deleteSession` rejects, `AppiumEngine.cleanup`
logs and RETHROWS before reaching `this.isInitialized = false`, so the
adapter stays initialized (and keeps its dead session handle) — cleanup
does not reset it to the uninitialized state. -/
theorem appiumCleanup_failure_keeps_initialized :
    (appiumCleanup cxAppiumState (Except.error "session deletion failed")).result =
      Except.error "session deletion failed" ∧
    (appiumCleanup cxAppiumState (Except.error "session deletion failed")).state =
      cxAppiumState ∧
    cxAppiumState.isInitialized = true ∧
    (appiumCleanup cxAppiumState (Except.error "session deletion failed")).state.driver =
      some () := by
  refine ⟨rfl, rfl, rfl, rfl⟩

/-- C9 amended: for all three adapters `initialize` is idempotent —
on an already-initialized adapter it returns immediately, with no
external calls and no state change.  Maestro and Playwright `cleanup`
always succeed and reset the adapter to the uninitialized state, and a
subsequent `initialize` performs full initialization again; Appium
`cleanup` resets the adapter only when the session deletion succeeds (a
rejection propagates and leaves the adapter initialized, see the
counterexample), after which `initialize` again opens a session. -/
theorem initialize_idempotent_cleanup_resets :
    (∀ (st : AppiumState) (r : Except String Unit) (g : GlobalConfig)
      (cfg : Option TestConfig), st.isInitialized = true →
      appiumInitialize st r g cfg = { result := Except.ok (), state := st, calls := [] }) ∧
    (∀ (st : MaestroState) (env : MaestroInitEnv) (cfg : Option TestConfig),
      st.isInitialized = true →
      maestroInitialize st env cfg = { result := Except.ok (), state := st, calls := [] }) ∧
    (∀ (st : PlaywrightState) (env : PlaywrightInitEnv) (g : GlobalConfig)
      (cfg : Option TestConfig), st.isInitialized = true →
      playwrightInitialize st env g cfg =
        { result := Except.ok (), state := st, calls := [] }) ∧
    (∀ (st : MaestroState) (files : List String),
      (maestroCleanup st files).result = Except.ok () ∧
      (maestroCleanup st files).state.isInitialized = false) ∧
    (∀ st : PlaywrightState,
      (playwrightCleanup st).result = Except.ok () ∧
      (playwrightCleanup st).state.isInitialized = false) ∧
    (∀ (st : AppiumState) (d : Except String Unit), st.driver = some () →
      d = Except.ok () →
      (appiumCleanup st d).result = Except.ok () ∧
      (appiumCleanup st d).state.isInitialized = false ∧
      (appiumCleanup st d).state.driver = none) ∧
    (∀ (st : MaestroState) (files : List String) (env : MaestroInitEnv)
      (cfg : Option TestConfig),
      (maestroInitialize (maestroCleanup st files).state env cfg).calls.head? =
        some "versionCheck") ∧
    (∀ (st : PlaywrightState) (env : PlaywrightInitEnv) (g : GlobalConfig)
      (cfg : Option TestConfig),
      (playwrightInitialize (playwrightCleanup st).state env g cfg).calls.head? =
        some "mkdirVideos") ∧
    (∀ (st : AppiumState) (d : Except String Unit) (r : Except String Unit)
      (g : GlobalConfig) (cfg : Option TestConfig), st.driver = some () →
      d = Except.ok () →
      (appiumInitialize (appiumCleanup st d).state r g cfg).calls = ["remote"]) := by
  refine ⟨?_, ?_, ?_, ?_, ?_, ?_, ?_, ?_, ?_⟩
  · intro st r g cfg h
    simp [appiumInitialize, h]
  · intro st env cfg h
    simp [maestroInitialize, h]
  · intro st env g cfg h
    simp [playwrightInitialize, h]
  · intro st files
    exact ⟨rfl, rfl⟩
  · intro st
    exact ⟨rfl, rfl⟩
  · intro st d hd hok
    subst hok
    simp [appiumCleanup, hd]
  · intro st files env cfg
    simp only [maestroCleanup, maestroInitialize]
    cases hv : env.versionOutcome with
    | ok _ =>
      cases hm : env.mkdirOutcome with
      | ok _ => simp
      | error e => simp
    | error e => simp
  · intro st env g cfg
    simp only [playwrightCleanup, playwrightInitialize]
    cases hv : env.mkdirVideoOutcome with
    | ok _ =>
      cases hm : env.mkdirShotOutcome with
      | ok _ =>
        cases hl : launchAllBrowsers env
          (match cfg with
           | some tc => match tc.browsers with | some l => l | none => g.playwrightBrowsers
           | none => g.playwrightBrowsers) with
        | mk fst snd =>
          cases fst <;> simp [hl]
      | error e => simp
    | error e => simp
  · intro st d r g cfg hd hok
    subst hok
    cases hr : r with
    | ok _ => simp [appiumCleanup, appiumInitialize, hd]
    | error e => simp [appiumCleanup, appiumInitialize, hd]

/-- Witness for C9 amended: concrete instantiations of the guarded
conjuncts — idempotent initialize on initialized adapters, successful
Appium cleanup resetting the state, and reinitialization after
cleanup. -/
theorem initialize_idempotent_cleanup_resets_witness :
    appiumInitialize cxAppiumState (Except.ok ()) {} none =
      { result := Except.ok (), state := cxAppiumState, calls := [] } ∧
    maestroInitialize cxMaestroState cxMaestroInitEnv none =
      { result := Except.ok (), state := cxMaestroState, calls := [] } ∧
    playwrightInitialize cxPlaywrightState
      { mkdirVideoOutcome := .ok (), mkdirShotOutcome := .ok (),
        launchOutcome := fun _ => .ok () } {} none =
      { result := Except.ok (), state := cxPlaywrightState, calls := [] } ∧
    (appiumCleanup cxAppiumState (Except.ok ())).state.isInitialized = false ∧
    (maestroInitialize (maestroCleanup cxMaestroState []).state cxMaestroInitEnv
      none).calls.head? = some "versionCheck" ∧
    (appiumInitialize (appiumCleanup cxAppiumState (Except.ok ())).state (Except.ok ())
      {} none).calls = ["remote"] := by
  obtain ⟨hA, hM, hP, _, _, hClean, hReuse, _, hAppReuse⟩ :=
    initialize_idempotent_cleanup_resets
  exact ⟨hA cxAppiumState (Except.ok ()) {} none rfl,
    hM cxMaestroState cxMaestroInitEnv none rfl,
    hP cxPlaywrightState _ {} none rfl,
    (hClean cxAppiumState (Except.ok ()) rfl rfl).2.1,
    hReuse cxMaestroState [] cxMaestroInitEnv none,
    hAppReuse cxAppiumState (Except.ok ()) (Except.ok ()) {} none rfl rfl⟩

end AutoTest
